import Mathlib

/-!
# Verification of the "Release Nightly" workflow

A shallow embedding of the nightly release pipeline (a GitHub Actions
workflow): the activity gate script, the job dependency graph with its
skip and failure propagation, the date renderings, the package naming
scheme, and the mirror-update scripts.
-/

namespace RuffleNightly

/-! ## Bash semantics used by the `Activity check` step

The step runs under `shell: bash`, which GitHub Actions invokes as
`bash --noprofile --norc -eo pipefail {0}`: any failing command (or any
failing stage of a pipeline) aborts the script with a nonzero status.

`[[ $days < 1 ]]` inside `[[ ]]` is a *lexicographic string* comparison,
not a numeric one, so we model the decimal rendering of the arithmetic
result and compare it to the string `"1"` character by character.
`$(( ... / ... ))` is C-style integer division truncating toward zero,
i.e. `Int.tdiv`.
-/

/-- Lexicographic (byte-wise) string comparison, as used by `[[ a < b ]]`
in bash (C locale). -/
def lexLt : List Char → List Char → Bool
  | [], [] => false
  | [], _ :: _ => true
  | _ :: _, [] => false
  | a :: as, b :: bs =>
    if a < b then true
    else if b < a then false
    else lexLt as bs

/-- Accumulator loop producing the decimal digits of `n` (most significant
first), prepended to `acc`; `fuel` bounds the recursion so that the
definition is structural and kernel-reducible. -/
def natDigitsGo : Nat → Nat → List Char → List Char
  | 0, _, acc => acc
  | fuel + 1, n, acc =>
    if n = 0 then acc
    else natDigitsGo fuel (n / 10) (Nat.digitChar (n % 10) :: acc)

/-- Decimal rendering of a natural number, no leading zeros (`0 ↦ "0"`),
as bash's arithmetic expansion prints it. -/
def natDigits (n : Nat) : List Char :=
  if n = 0 then ['0'] else natDigitsGo (n + 1) n []

/-- Decimal rendering of an integer, `'-'`-prefixed when negative, as
bash's arithmetic expansion prints it. -/
def intChars (d : Int) : List Char :=
  if d < 0 then '-' :: natDigits d.natAbs else natDigits d.toNat

/-- The test `[[ $days < 1 ]]` of the activity-check script: lexicographic
comparison of the decimal rendering of `days` against the string `"1"`. -/
def bashLtOne (d : Int) : Bool := lexLt (intChars d) ['1']

/-! ## The Activity check step

```
days=$(( ( $(date --utc +%s) - $timestamp ) / 86400 ))
alive=0
if [ event == repository_dispatch ] || [ event == workflow_dispatch ]; then alive=1
elif [[ $days < 1 ]]; then alive=1
fi
if [[ $alive == 1 ]]; then echo "GHA_REPO_ALIVE=true" >> $GITHUB_ENV; fi
```
-/

/-- The script treats both dispatch events as a manual trigger
(`github.event_name` is compared against these two strings). -/
def manualEvent (eventName : String) : Bool :=
  eventName == "repository_dispatch" || eventName == "workflow_dispatch"

/-- `days` as the script computes it: bash `$(( ))` division truncates
toward zero. -/
def daysSinceBash (now timestamp : Int) : Int :=
  Int.tdiv (now - timestamp) 86400

/-- The script's `alive` flag, given a successfully fetched and parsed
last-commit timestamp. -/
def activityAlive (eventName : String) (now timestamp : Int) : Bool :=
  if manualEvent eventName then true
  else bashLtOne (daysSinceBash now timestamp)

/-! ### Lemmas: the string comparison agrees with `days ≤ 0` -/

theorem natDigitsGo_zero (fuel : Nat) (acc : List Char) :
    natDigitsGo fuel 0 acc = acc := by
  cases fuel <;> simp [natDigitsGo]

/-- The leading character produced by the digit loop on a positive input
is a digit between `'1'` and `'9'`. -/
theorem natDigitsGo_head (fuel : Nat) :
    ∀ (n : Nat) (acc : List Char), n < fuel → 1 ≤ n →
      ∃ c cs, natDigitsGo fuel n acc = c :: cs ∧
        49 ≤ c.toNat ∧ c.toNat ≤ 57 := by
  induction fuel with
  | zero => intro n acc hlt; omega
  | succ fuel ih =>
    intro n acc hlt hpos
    have hne : n ≠ 0 := by omega
    rw [natDigitsGo, if_neg hne]
    by_cases hq : n / 10 = 0
    · have hn10 : n < 10 := by
        rcases Nat.div_eq_zero_iff (by omega : 0 < 10) |>.mp hq with h
        exact h
      rw [hq, natDigitsGo_zero]
      refine ⟨Nat.digitChar (n % 10), acc, rfl, ?_⟩
      have hmod : n % 10 = n := Nat.mod_eq_of_lt hn10
      rw [hmod]
      have : ∀ m < 10, 1 ≤ m → 49 ≤ (Nat.digitChar m).toNat ∧
          (Nat.digitChar m).toNat ≤ 57 := by decide
      exact this n hn10 hpos
    · have hqpos : 1 ≤ n / 10 := by omega
      have hqlt : n / 10 < fuel := by
        have := Nat.div_lt_self (by omega : 0 < n) (by omega : 1 < 10)
        omega
      exact ih (n / 10) (Nat.digitChar (n % 10) :: acc) hqlt hqpos

/-- For a positive integer, the decimal rendering starts with a character
`≥ '1'`. -/
theorem natDigits_head (n : Nat) (h : 1 ≤ n) :
    ∃ c cs, natDigits n = c :: cs ∧ 49 ≤ c.toNat ∧ c.toNat ≤ 57 := by
  unfold natDigits
  rw [if_neg (by omega : n ≠ 0)]
  exact natDigitsGo_head (n + 1) n [] (by omega) h

/-- The bash test `[[ $days < 1 ]]` holds exactly when `days ≤ 0`: the
lexicographic comparison of decimal renderings against `"1"` coincides
with the numeric comparison on all integers. -/
theorem bashLtOne_eq (d : Int) : bashLtOne d = decide (d ≤ 0) := by
  unfold bashLtOne intChars
  by_cases hneg : d < 0
  · rw [if_pos hneg]
    simp only [lexLt]
    rw [if_pos (by decide : ('-' : Char) < '1')]
    simp [decide_eq_true_eq]
    omega
  · rw [if_neg hneg]
    by_cases hz : d.toNat = 0
    · have hd0 : d = 0 := by omega
      subst hd0
      simp [natDigits, lexLt]
    · obtain ⟨c, cs, hrep, hc1, hc9⟩ := natDigits_head d.toNat (by omega)
      rw [hrep]
      have hnotlt : ¬ c < '1' := by
        intro hlt
        have : c.toNat < 49 := hlt
        omega
      have hd_pos : ¬ d ≤ 0 := by omega
      simp only [lexLt, if_neg hnotlt]
      by_cases hgt : ('1' : Char) < c
      · rw [if_pos hgt]; simp [hd_pos]
      · rw [if_neg hgt]
        cases cs <;> simp [lexLt, hd_pos]

/-- Truncating division by 86400 is nonpositive exactly when the dividend
is below 86400. -/
theorem tdiv_86400_nonpos_iff (a : Int) :
    Int.tdiv a 86400 ≤ 0 ↔ a < 86400 := by
  rcases a with m | m
  · have h : Int.tdiv (Int.ofNat m) 86400 = Int.ofNat (m / 86400) := rfl
    rw [h]
    simp only [Int.ofNat_eq_coe]
    omega
  · have h : Int.tdiv (Int.negSucc m) 86400 = -Int.ofNat ((m + 1) / 86400) := rfl
    rw [h]
    simp only [Int.ofNat_eq_coe, Int.negSucc_eq]
    omega

/-- Floor division by 86400 is below 1 exactly when the dividend is below
86400. -/
theorem fdiv_86400_lt_one_iff (a : Int) :
    Int.fdiv a 86400 < 1 ↔ a < 86400 := by
  rcases a with m | m
  · cases m with
    | zero => decide
    | succ k =>
      have h : Int.fdiv (Int.ofNat (k + 1)) 86400 = Int.ofNat ((k + 1) / 86400) := rfl
      rw [h]
      simp only [Int.ofNat_eq_coe]
      omega
  · have h : Int.fdiv (Int.negSucc m) 86400 = Int.negSucc (m / 86400) := rfl
    rw [h]
    simp only [Int.negSucc_eq]
    omega

/-! ## The workflow's job graph

Jobs: `create-nightly-release`, the five-leg `build` matrix
(`strategy.fail-fast: false`), `build-mac-universal-binary`
(`needs: [create-nightly-release, build]`, no `if:`), `build-web`
(`needs: create-nightly-release`, gated on the activity output) and
`publish-aur-package` (`needs: build`, no `if:`).

GitHub Actions semantics embedded here: a job runs only when every job in
its `needs` list succeeded and its `if:` condition evaluates to true; a
job whose `needs` failed or were skipped is itself skipped; a skipped job
executes none of its steps; the workflow run succeeds when no job failed.
-/

/-- The five rows of the `build` matrix. -/
inductive Leg
  | linux_x86_64
  | macos_x86_64
  | macos_aarch64
  | windows_x86_32
  | windows_x86_64
deriving DecidableEq

/-- `matrix.build_name` of a leg. -/
def Leg.buildName : Leg → String
  | .linux_x86_64 => r"linux-x86_64"
  | .macos_x86_64 => r"macos-x86_64"
  | .macos_aarch64 => r"macos-aarch64"
  | .windows_x86_32 => r"windows-x86_32"
  | .windows_x86_64 => r"windows-x86_64"

/-- All matrix legs, in the order of the `include` list. -/
def allLegs : List Leg :=
  [.linux_x86_64, .macos_x86_64, .macos_aarch64, .windows_x86_32, .windows_x86_64]

/-- The legs whose artifact feeds the universal-binary merge. -/
def Leg.isMac : Leg → Bool
  | .macos_x86_64 => true
  | .macos_aarch64 => true
  | _ => false

/-- The external inputs that determine one run of the workflow:
the triggering event name, the wall clock, the result of the
`curl | jq` / `date -d` recency lookup (`none` when any of those fails),
and which legs' external cargo builds error. -/
structure RunInput where
  eventName : String
  now : Int
  lookup : Option Int
  legFails : Leg → Bool

/-- Result of one script step under `bash -eo pipefail`. -/
inductive StepResult
  | failed
  | ok (alive : Bool)
deriving DecidableEq

/-- The `Activity check` step: when the lookup pipeline fails, `set -e`
aborts the script before the event-name test is reached, so the step
fails; otherwise the step succeeds and decides `alive`. -/
def activityCheckStep (i : RunInput) : StepResult :=
  match i.lookup with
  | none => .failed
  | some ts => .ok (activityAlive i.eventName i.now ts)

/-- Status of a job in the finished run. -/
inductive JobStatus
  | success
  | failure
  | skipped
deriving DecidableEq

/-- `create-nightly-release`: fails iff its activity-check script fails
(the time steps and the gated release-creation step do not fail). -/
def createJobStatus (i : RunInput) : JobStatus :=
  match activityCheckStep i with
  | .failed => .failure
  | .ok _ => .success

/-- The job output `activity_check`, i.e. `env.GHA_REPO_ALIVE`: the
string `"true"` when the script wrote it, the empty string when the
variable was never set. -/
def activityOutput (i : RunInput) : String :=
  match activityCheckStep i with
  | .ok true => r"true"
  | _ => r""

/-- Did the `Create release` step run? (`if: env.GHA_REPO_ALIVE == 'true'`
inside a job that must itself have got that far.) -/
def releaseCreated (i : RunInput) : Bool :=
  createJobStatus i == .success && activityOutput i == r"true"

/-- Do the `build` matrix legs start? (`needs: create-nightly-release`
succeeded and `if: needs...outputs.activity_check == 'true'`.) -/
def legRuns (i : RunInput) : Bool :=
  createJobStatus i == .success && activityOutput i == r"true"

/-- Outcome of one matrix leg; `fail-fast: false`, so each leg depends
only on its own external build result. -/
def legStatus (i : RunInput) (l : Leg) : JobStatus :=
  if legRuns i then (if i.legFails l then .failure else .success) else .skipped

/-- Overall status of the `build` job: failed when any leg failed. -/
def buildJobStatus (i : RunInput) : JobStatus :=
  if legRuns i then
    (if allLegs.any i.legFails then .failure else .success)
  else .skipped

/-- Was a leg's raw macOS binary uploaded as a workflow artifact?
(The `Upload macOS build artifact` step runs on macOS legs only, at the
end of a successful leg.) -/
def macArtifactUploaded (i : RunInput) (l : Leg) : Bool :=
  l.isMac && legStatus i l == .success

/-- Does `build-mac-universal-binary` run? `needs: [create-nightly-release,
build]`, no `if:`, so it runs exactly when both those jobs succeeded. -/
def universalRuns (i : RunInput) : Bool :=
  createJobStatus i == .success && buildJobStatus i == .success

/-- Status of `build-mac-universal-binary` (its own steps are external
downloads/lipo/uploads, modelled as succeeding). -/
def universalStatus (i : RunInput) : JobStatus :=
  if universalRuns i then .success else .skipped

/-- Status of `build-web` (`needs: create-nightly-release` plus the
activity-output condition). -/
def buildWebStatus (i : RunInput) : JobStatus :=
  if createJobStatus i == .success && activityOutput i == r"true" then .success
  else .skipped

/-- Status of `publish-aur-package` (`needs: build`, no `if:`). -/
def aurStatus (i : RunInput) : JobStatus :=
  if buildJobStatus i == .success then .success else .skipped

/-- The workflow run succeeds when no job failed (skipped jobs do not
fail a run). -/
def workflowSuccess (i : RunInput) : Bool :=
  !(createJobStatus i == .failure) && !(buildJobStatus i == .failure) &&
    !(universalStatus i == .failure) && !(buildWebStatus i == .failure) &&
    !(aurStatus i == .failure)

/-- Release-asset uploads performed inside a leg: non-macOS legs upload
their package directly (`if: runner.os != 'macOS'`), macOS legs hand
their binary to the merge instead. -/
def Leg.directUploads : Leg → Nat
  | .macos_x86_64 => 0
  | .macos_aarch64 => 0
  | _ => 1

/-- Total count of publish operations performed in a run: per-leg release
asset uploads, the merged-artifact upload, build-web's three asset
uploads and two mirror pushes, and the AUR submission. -/
def totalPublishOps (i : RunInput) : Nat :=
  (allLegs.map fun l => if legStatus i l == .success then l.directUploads else 0).sum
    + (if universalStatus i == .success then 1 else 0)
    + (if buildWebStatus i == .success then 5 else 0)
    + (if aurStatus i == .success then 1 else 0)

/-- Everything observable about a finished run. -/
structure Outcome where
  createJob : JobStatus
  buildJob : JobStatus
  legLinux : JobStatus
  legMacX64 : JobStatus
  legMacA64 : JobStatus
  legWin32 : JobStatus
  legWin64 : JobStatus
  universalJob : JobStatus
  webJob : JobStatus
  aurJob : JobStatus
  released : Bool
  publishOps : Nat
deriving DecidableEq

/-- Evaluate a whole run. -/
def outcomeOf (i : RunInput) : Outcome where
  createJob := createJobStatus i
  buildJob := buildJobStatus i
  legLinux := legStatus i .linux_x86_64
  legMacX64 := legStatus i .macos_x86_64
  legMacA64 := legStatus i .macos_aarch64
  legWin32 := legStatus i .windows_x86_32
  legWin64 := legStatus i .windows_x86_64
  universalJob := universalStatus i
  webJob := buildWebStatus i
  aurJob := aurStatus i
  released := releaseCreated i
  publishOps := totalPublishOps i

/-! ## Completion-order traces

For the barrier claim we also record the order in which jobs complete.
A trace is valid when every executed node appears after all of the nodes
it `needs` (a `needs` on the `build` matrix waits for all five legs). -/

/-- Nodes of the dependency graph, with matrix legs individually. -/
inductive NodeId
  | create
  | leg (l : Leg)
  | universal
  | web
  | aur
deriving DecidableEq

/-- The `needs` edges of the workflow, legs expanded. -/
def NodeId.deps : NodeId → List NodeId
  | .create => []
  | .leg _ => [.create]
  | .universal => .create :: allLegs.map .leg
  | .web => [.create]
  | .aur => allLegs.map .leg

/-- A completion order is valid when it has no duplicates and every
listed node's dependencies are listed before it. -/
def validTrace (tr : List NodeId) : Prop :=
  tr.Nodup ∧ ∀ j ∈ tr, ∀ d ∈ j.deps, d ∈ tr ∧ tr.indexOf d < tr.indexOf j

/-! ## Clock samplings and date renderings

Four separate steps invoke the `get-current-time` action, each sampling
the clock at its own instant: `create-nightly-release` runs the dashes
step then the underscores step, and `publish-aur-package` (which starts
only after the whole `build` job) runs its own dashes step then a dots
step.  Each sampling is rendered as a UTC calendar date
(`YYYY-MM-DD` / `YYYY_MM_DD` / `YYYY.MM.DD`). -/

/-- Days elapsed since the Unix epoch at UTC instant `t` (seconds). -/
def dayNumber (t : Nat) : Nat := t / 86400

/-- Gregorian calendar date (year, month, day) of an epoch day count
(standard civil-from-days algorithm, valid for all post-1970 instants). -/
def civilFromDay (day : Nat) : Nat × Nat × Nat :=
  let z := day + 719468
  let era := z / 146097
  let doe := z % 146097
  let yoe := (doe - doe / 1460 + doe / 36524 - doe / 146096) / 365
  let y := yoe + era * 400
  let doy := doe - (365 * yoe + yoe / 4 - yoe / 100)
  let mp := (5 * doy + 2) / 153
  let d := doy - (153 * mp + 2) / 5 + 1
  let m := if mp < 10 then mp + 3 else mp - 9
  (if m ≤ 2 then y + 1 else y, m, d)

/-- Two-digit zero-padded rendering of a month or day number. -/
def pad2 (n : Nat) : String :=
  if n < 10 then r"0" ++ toString n else toString n

/-- The formatted date at instant `t` with the given separator
(`YYYY<sep>MM<sep>DD`). -/
def renderDate (sep : String) (t : Nat) : String :=
  let c := civilFromDay (dayNumber t)
  toString c.1 ++ sep ++ pad2 c.2.1 ++ sep ++ pad2 c.2.2

/-- The dash rendering used for the release tag and title. -/
def dashDate (t : Nat) : String := renderDate (r"-") t

/-- The underscore rendering used for the package-name stem. -/
def underscoreDate (t : Nat) : String := renderDate (r"_") t

/-- The dot rendering used for the AUR `PKGBUILD` version. -/
def dotDate (t : Nat) : String := renderDate (r".") t

/-- Two instants fall on the same UTC calendar day. -/
def sameCalendarDay (s t : Nat) : Prop :=
  civilFromDay (dayNumber s) = civilFromDay (dayNumber t)

/-- The four clock samplings of one run, in execution order:
`create-nightly-release`'s dashes and underscores steps, then
`publish-aur-package`'s dashes and dots steps. -/
structure RunInstants where
  tDash1 : Nat
  tUnderscore : Nat
  tDash2 : Nat
  tDot : Nat
  ordered1 : tDash1 ≤ tUnderscore
  ordered2 : tUnderscore ≤ tDash2
  ordered3 : tDash2 ≤ tDot

/-! ## Package naming

`PACKAGE_FILE` of a `build` leg is
`<package_prefix>-<build_name>.<startsWith(build_name, 'win') && 'zip' || 'tar.gz'>`,
where `package_prefix` is `ruffle-nightly-<underscore date>`; the
universal-binary job uses `<package_prefix>-macos-universal.tar.gz`. -/

/-- One row of the `build` matrix `include` table. -/
structure BuildTarget where
  build_name : String
  os : String
  target : Option String
  rustflags : Option String
deriving DecidableEq

/-- The five-entry static matrix, exactly as listed in the workflow. -/
def buildTargets : List BuildTarget :=
  [⟨r"linux-x86_64", r"ubuntu-latest", none, none⟩,
   ⟨r"macos-x86_64", r"macos-latest", some (r"x86_64-apple-darwin"), none⟩,
   ⟨r"macos-aarch64", r"macos-latest", some (r"aarch64-apple-darwin"), none⟩,
   ⟨r"windows-x86_32", r"windows-latest", some (r"i686-pc-windows-msvc"),
     some (r"-Ctarget-feature=+crt-static")⟩,
   ⟨r"windows-x86_64", r"windows-latest", some (r"x86_64-pc-windows-msvc"),
     some (r"-Ctarget-feature=+crt-static")⟩]

/-- The `package_prefix` output of `create-nightly-release`. -/
def packageStem (ud : String) : String := r"ruffle-nightly-" ++ ud

/-- Does `s` start with `pre`? (character-list prefix test) -/
def charsStartWith (s pre : String) : Bool := pre.data.isPrefixOf s.data

/-- Does `s` end with `post`? (character-list suffix test) -/
def charsEndWith (s post : String) : Bool := post.data.isSuffixOf s.data

/-- The archive extension chosen by the workflow expression
`startsWith(matrix.build_name, 'win') && 'zip' || 'tar.gz'`. -/
def packageExt (buildName : String) : String :=
  if charsStartWith buildName (r"win") then r"zip" else r"tar.gz"

/-- `PACKAGE_FILE` of a matrix leg. -/
def packageFile (stem buildName : String) : String :=
  stem ++ r"-" ++ buildName ++ r"." ++ packageExt buildName

/-- `PACKAGE_FILE` of the universal-binary job. -/
def universalPackageFile (stem : String) : String :=
  stem ++ r"-macos-universal.tar.gz"

/-! ## The mirror repositories and the amend-based update

The demo mirror's working tree is a map from paths (component lists,
head = top-level entry) to file contents.  The `Update web demo` script
runs, inside the clone:

```
rm -f *.js *.wasm *.html
cp -f ../web/packages/demo/dist/* .
git add -A
git commit --amend -m "Nightly build <date>"
```

`rm -f *.js ...` removes only top-level glob matches (bash globs skip
dot-files), `cp -f src/* .` copies only top-level files of the source
into the top level, and `git commit --amend` replaces the branch tip
with a new commit carrying the staged tree and the given message; the
subsequent push is forced. -/

/-- A path in a mirror working tree, as its list of components. -/
abbrev DirPath := List String

/-- A working tree: contents of the file at each path, if any. -/
abbrev FileTree := DirPath → Option String

/-- Does a top-level name match the glob `*.js`, `*.wasm` or `*.html`?
(A bash glob never matches names starting with a dot.) -/
def topGlobMatch (name : String) : Bool :=
  !charsStartWith name (r".") &&
    (charsEndWith name (r".js") || charsEndWith name (r".wasm") ||
      charsEndWith name (r".html"))

/-- `rm -f *.js *.wasm *.html`: delete the matching top-level files. -/
def rmOldBuild (t : FileTree) : FileTree :=
  fun p =>
    match p with
    | [name] => if topGlobMatch name then none else t p
    | _ => t p

/-- `cp -f <dist>/* .`: overwrite top-level entries with the fresh
build's files (`dist` lists the glob-visible files of the source). -/
def copyFresh (dist : List (String × String)) (t : FileTree) : FileTree :=
  fun p =>
    match p with
    | [name] =>
      match dist.lookup name with
      | some contents => some contents
      | none => t p
    | _ => t p

/-- The working tree left by the `Update web demo` script. -/
def updateDemoTree (dist : List (String × String)) (t : FileTree) : FileTree :=
  copyFresh dist (rmOldBuild t)

/-- A commit of a mirror branch: its message and its tree snapshot. -/
structure Commit where
  message : String
  tree : FileTree

/-- The commit message written by both mirror-update scripts. -/
def nightlyMessage (date : String) : String := r"Nightly build " ++ date

/-- One run of the demo-mirror updater on a branch (tip first):
recompute the tree, then `git commit --amend` — replace the tip with a
commit carrying the new tree and message.  With no commit to amend the
script fails. -/
def updateDemoRun (date : String) (dist : List (String × String)) :
    List Commit → Option (List Commit)
  | [] => none
  | tip :: rest =>
    some ({ message := nightlyMessage date, tree := updateDemoTree dist tip.tree } :: rest)

/-! ## Shared helper lemmas -/

/-- Every leg is listed in the matrix. -/
theorem leg_mem_allLegs (l : Leg) : l ∈ allLegs := by
  cases l <;> decide

/-- When the lookup succeeded and the gate decided `alive`, the
activity-check step reports it. -/
theorem activityCheckStep_ok (i : RunInput) (ts : Int) (h : i.lookup = some ts) :
    activityCheckStep i = .ok (activityAlive i.eventName i.now ts) := by
  simp [activityCheckStep, h]

/-- A run whose activity-check step reported `alive = false` starts no
downstream job and performs no publish operation, yet no job fails. -/
theorem notAlive_all_skipped (i : RunInput) (hstep : activityCheckStep i = .ok false) :
    releaseCreated i = false ∧
    (∀ l : Leg, legStatus i l = JobStatus.skipped) ∧
    buildJobStatus i = JobStatus.skipped ∧
    universalStatus i = JobStatus.skipped ∧
    buildWebStatus i = JobStatus.skipped ∧
    aurStatus i = JobStatus.skipped ∧
    totalPublishOps i = 0 ∧
    workflowSuccess i = true := by
  have hcreate : createJobStatus i = .success := by
    simp [createJobStatus, hstep]
  have hout : activityOutput i = r"" := by
    simp [activityOutput, hstep]
  have hrun : legRuns i = false := by
    simp [legRuns, hcreate, hout]
  have hleg : ∀ l : Leg, legStatus i l = JobStatus.skipped := by
    intro l
    simp [legStatus, hrun]
  have hbuild : buildJobStatus i = JobStatus.skipped := by
    simp [buildJobStatus, hrun]
  have huniv : universalStatus i = JobStatus.skipped := by
    simp [universalStatus, universalRuns, hbuild]
  have hweb : buildWebStatus i = JobStatus.skipped := by
    simp [buildWebStatus, hcreate, hout]
  have haur : aurStatus i = JobStatus.skipped := by
    simp [aurStatus, hbuild]
  refine ⟨?_, hleg, hbuild, huniv, hweb, haur, ?_, ?_⟩
  · simp [releaseCreated, hcreate, hout]
  · simp [totalPublishOps, hleg, huniv, hweb, haur, allLegs]
  · simp [workflowSuccess, hcreate, hbuild, huniv, hweb, haur]

/-! ## The claims -/

/-- C1: for every pipeline run, the Activity Gate's decision satisfies:
on a manual trigger `isAlive` is true unconditionally; on a scheduled
trigger `isAlive` is true exactly when
`days = floor((now - lastChangeTimestamp) / 86400)` is below 1 (and so
false for every `days ≥ 1`).  The script computes `days` with
truncating division and compares its decimal rendering to `"1"`
lexicographically, which coincides with the floor-division policy on
every input. -/
theorem activity_gate_policy (e : String) (now last : Int) :
    (manualEvent e = true → activityAlive e now last = true) ∧
    (e = r"schedule" →
      (activityAlive e now last = true ↔ Int.fdiv (now - last) 86400 < 1)) := by
  constructor
  · intro h
    simp [activityAlive, h]
  · intro h
    subst h
    have hm : manualEvent (r"schedule") = false := rfl
    rw [activityAlive, hm]
    simp only [Bool.false_eq_true, if_false]
    rw [bashLtOne_eq, daysSinceBash]
    simp only [decide_eq_true_eq]
    rw [tdiv_86400_nonpos_iff, fdiv_86400_lt_one_iff]

/-- Witness for C1 at concrete inputs: a 30-day-stale manual run is
alive; a 2-day-stale scheduled run satisfies the floor-division
equivalence. -/
theorem activity_gate_policy_witness :
    activityAlive (r"workflow_dispatch") 2592000 0 = true ∧
    (activityAlive (r"schedule") 172800 0 = true ↔
      Int.fdiv (172800 - 0) 86400 < 1) :=
  ⟨(activity_gate_policy (r"workflow_dispatch") 2592000 0).1 (by decide),
   (activity_gate_policy (r"schedule") 172800 0).2 rfl⟩

/-- C2: when the Activity Gate reports not-alive on a scheduled trigger,
release creation, all platform builds, the merger and all four channel
publishers are skipped with zero operations, and the workflow as a whole
reports success. -/
theorem scheduled_stale_skips_all (i : RunInput) (ts : Int)
    (_hsched : i.eventName = r"schedule")
    (hlookup : i.lookup = some ts)
    (hstale : activityAlive i.eventName i.now ts = false) :
    releaseCreated i = false ∧
    (∀ l : Leg, legStatus i l = JobStatus.skipped) ∧
    buildJobStatus i = JobStatus.skipped ∧
    universalStatus i = JobStatus.skipped ∧
    buildWebStatus i = JobStatus.skipped ∧
    aurStatus i = JobStatus.skipped ∧
    totalPublishOps i = 0 ∧
    workflowSuccess i = true := by
  have hstep : activityCheckStep i = .ok false := by
    rw [activityCheckStep_ok i ts hlookup, hstale]
  exact notAlive_all_skipped i hstep

/-- Witness for C2: a scheduled run two days after the last commit skips
everything and the run still succeeds. -/
def staleInput : RunInput := ⟨r"schedule", 172800, some 0, fun _ => false⟩

/-- Witness for C2 at the concrete stale scheduled run. -/
theorem scheduled_stale_skips_all_witness :
    releaseCreated staleInput = false ∧
    (∀ l : Leg, legStatus staleInput l = JobStatus.skipped) ∧
    buildJobStatus staleInput = JobStatus.skipped ∧
    universalStatus staleInput = JobStatus.skipped ∧
    buildWebStatus staleInput = JobStatus.skipped ∧
    aurStatus staleInput = JobStatus.skipped ∧
    totalPublishOps staleInput = 0 ∧
    workflowSuccess staleInput = true :=
  scheduled_stale_skips_all staleInput 0 rfl rfl (by decide)

/-- C3: the Artifact Merger runs only after every job of the build
fan-out has completed — in every valid completion order all five legs
precede `build-mac-universal-binary` — and whenever the merger actually
starts, both the macos-x86_64 and the macos-aarch64 raw binaries have
been uploaded, so the merge is never attempted with only one of them. -/
theorem merge_barrier :
    (∀ tr : List NodeId, validTrace tr → NodeId.universal ∈ tr →
      ∀ l : Leg, NodeId.leg l ∈ tr ∧
        tr.indexOf (NodeId.leg l) < tr.indexOf NodeId.universal) ∧
    (∀ i : RunInput, universalRuns i = true →
      macArtifactUploaded i .macos_x86_64 = true ∧
      macArtifactUploaded i .macos_aarch64 = true) := by
  constructor
  · intro tr hvalid hmem l
    refine hvalid.2 _ hmem (NodeId.leg l) ?_
    cases l <;> decide
  · intro i hrun
    simp only [universalRuns, Bool.and_eq_true, beq_iff_eq] at hrun
    obtain ⟨-, hbuild⟩ := hrun
    rw [buildJobStatus] at hbuild
    by_cases hlr : legRuns i = true
    · rw [if_pos hlr] at hbuild
      by_cases hany : allLegs.any i.legFails = true
      · rw [if_pos hany] at hbuild
        cases hbuild
      · rw [if_neg hany] at hbuild
        have hnofail : ∀ l : Leg, i.legFails l = false := by
          intro l
          rcases h : i.legFails l with - | -
          · rfl
          · exact absurd (List.any_eq_true.mpr ⟨l, leg_mem_allLegs l, h⟩) hany
        constructor <;>
          simp [macArtifactUploaded, Leg.isMac, legStatus, hlr, hnofail]
    · rw [if_neg hlr] at hbuild
      cases hbuild

/-- A completion order in which every leg finishes before the merger. -/
def fullTrace : List NodeId :=
  [.create, .leg .linux_x86_64, .leg .macos_x86_64, .leg .macos_aarch64,
   .leg .windows_x86_32, .leg .windows_x86_64, .universal, .web, .aur]

/-- A healthy manual run: lookup succeeds, no leg fails. -/
def healthyInput : RunInput := ⟨r"workflow_dispatch", 0, some 0, fun _ => false⟩

/-- Witness for C3: the barrier facts at a concrete valid completion
order and the artifact facts at a concrete healthy run. -/
theorem merge_barrier_witness :
    (NodeId.leg (Leg.macos_aarch64) ∈ fullTrace ∧
      fullTrace.indexOf (NodeId.leg (Leg.macos_aarch64)) <
        fullTrace.indexOf NodeId.universal) ∧
    (macArtifactUploaded healthyInput .macos_x86_64 = true ∧
      macArtifactUploaded healthyInput .macos_aarch64 = true) :=
  ⟨merge_barrier.1 fullTrace (by constructor <;> decide) (by decide) .macos_aarch64,
   merge_barrier.2 healthyInput (by decide)⟩

/-- The run instants of a counterexample to C4: the underscore sampling
happens one second before midnight, the AUR job's samplings the second
after. -/
def splitInstants : RunInstants := ⟨86399, 86399, 86400, 86400,
  by omega, by omega, by omega⟩

/-- C4 counterexample: the claim that all date renderings of one run
derive from a single instant — in particular that the underscore date of
the package names and the dot date of the AUR version always fall on the
same calendar day — fails at a run whose `publish-aur-package` job
samples the clock after midnight. -/
theorem date_resample_cex :
    ¬ ∀ r : RunInstants, sameCalendarDay r.tUnderscore r.tDot := by
  intro h
  have hc := h splitInstants
  unfold sameCalendarDay at hc
  exact absurd hc (by decide)

/-- C4 (amended): each date step re-samples the clock at its own
instant; whenever the first and the last sampling of a run fall on the
same UTC day, all four samplings do, and the dash, underscore and dot
renderings all show that one calendar day. -/
theorem date_renderings_same_day (r : RunInstants)
    (h : dayNumber r.tDash1 = dayNumber r.tDot) :
    sameCalendarDay r.tDash1 r.tUnderscore ∧
    sameCalendarDay r.tDash1 r.tDash2 ∧
    sameCalendarDay r.tDash1 r.tDot ∧
    dashDate r.tDash2 = dashDate r.tDash1 ∧
    underscoreDate r.tUnderscore = underscoreDate r.tDash1 ∧
    dotDate r.tDot = dotDate r.tDash1 := by
  have h1 : dayNumber r.tDash1 ≤ dayNumber r.tUnderscore :=
    Nat.div_le_div_right r.ordered1
  have h2 : dayNumber r.tUnderscore ≤ dayNumber r.tDash2 :=
    Nat.div_le_div_right r.ordered2
  have h3 : dayNumber r.tDash2 ≤ dayNumber r.tDot :=
    Nat.div_le_div_right r.ordered3
  have hu : dayNumber r.tUnderscore = dayNumber r.tDash1 := by omega
  have hd2 : dayNumber r.tDash2 = dayNumber r.tDash1 := by omega
  have hd : dayNumber r.tDot = dayNumber r.tDash1 := by omega
  refine ⟨?_, ?_, ?_, ?_, ?_, ?_⟩
  · exact (congrArg civilFromDay hu).symm
  · exact (congrArg civilFromDay hd2).symm
  · exact (congrArg civilFromDay hd).symm
  · unfold dashDate renderDate
    rw [hd2]
  · unfold underscoreDate renderDate
    rw [hu]
  · unfold dotDate renderDate
    rw [hd]

/-- Witness for C4 (amended) at a run whose four samplings sit inside
one calendar day. -/
theorem date_renderings_same_day_witness :
    sameCalendarDay 3600 7200 ∧
    sameCalendarDay 3600 50000 ∧
    sameCalendarDay 3600 86000 ∧
    dashDate 50000 = dashDate 3600 ∧
    underscoreDate 7200 = underscoreDate 3600 ∧
    dotDate 86000 = dotDate 3600 :=
  date_renderings_same_day
    ⟨3600, 7200, 50000, 86000, by omega, by omega, by omega⟩ (by decide)

/-- C5: running the mirror updater twice in sequence on the same branch
leaves exactly one commit beyond the pre-existing history: each run
amends (replaces) the tip commit — never appends — and sets its message
to name the current release date, so the branch is the amended commit on
top of the untouched earlier history. -/
theorem mirror_update_twice (tip : Commit) (rest : List Commit)
    (d1 d2 : String) (f1 f2 : List (String × String)) :
    (updateDemoRun d1 f1 (tip :: rest)).bind (updateDemoRun d2 f2) =
      some ({ message := nightlyMessage d2,
              tree := updateDemoTree f2 (updateDemoTree f1 tip.tree) } :: rest) ∧
    ((updateDemoRun d1 f1 (tip :: rest)).bind (updateDemoRun d2 f2)).map
        List.length = some (rest.length + 1) := by
  constructor <;> rfl

/-- The run input of the C6/C7 counterexamples: the recency lookup
fails (curl, jq or date errors out). -/
def lookupFailSched : RunInput := ⟨r"schedule", 1700000000, none, fun _ => false⟩

/-- C6 counterexample: on a scheduled run whose recency lookup fails,
the activity-check script aborts under `set -e`, so the
`create-nightly-release` job — and with it the workflow run — reports
failure; the gate does not succeed with a warning as the claim states. -/
theorem gate_failure_cex :
    createJobStatus lookupFailSched = JobStatus.failure ∧
    workflowSuccess lookupFailSched = false := by
  constructor <;> rfl

/-- C6 (amended): if the recency lookup fails on a scheduled trigger the
gate still fails closed — no release is created, every downstream job is
skipped and nothing is published — but the failure surfaces as a failed
activity-check step, so the workflow run reports failure rather than a
warning-only success. -/
theorem gate_failure_fails_closed (i : RunInput) (h : i.lookup = none) :
    createJobStatus i = JobStatus.failure ∧
    releaseCreated i = false ∧
    (∀ l : Leg, legStatus i l = JobStatus.skipped) ∧
    buildJobStatus i = JobStatus.skipped ∧
    universalStatus i = JobStatus.skipped ∧
    buildWebStatus i = JobStatus.skipped ∧
    aurStatus i = JobStatus.skipped ∧
    totalPublishOps i = 0 ∧
    workflowSuccess i = false := by
  have hstep : activityCheckStep i = .failed := by
    simp [activityCheckStep, h]
  have hcreate : createJobStatus i = JobStatus.failure := by
    simp [createJobStatus, hstep]
  have hout : activityOutput i = r"" := by
    simp [activityOutput, hstep]
  have hrun : legRuns i = false := by
    simp [legRuns, hcreate, hout]
  have hleg : ∀ l : Leg, legStatus i l = JobStatus.skipped := by
    intro l
    simp [legStatus, hrun]
  have hbuild : buildJobStatus i = JobStatus.skipped := by
    simp [buildJobStatus, hrun]
  have huniv : universalStatus i = JobStatus.skipped := by
    simp [universalStatus, universalRuns, hbuild]
  have hweb : buildWebStatus i = JobStatus.skipped := by
    simp [buildWebStatus, hcreate, hout]
  have haur : aurStatus i = JobStatus.skipped := by
    simp [aurStatus, hbuild]
  refine ⟨hcreate, ?_, hleg, hbuild, huniv, hweb, haur, ?_, ?_⟩
  · simp [releaseCreated, hcreate, hout]
  · simp [totalPublishOps, hleg, huniv, hweb, haur, allLegs]
  · simp [workflowSuccess, hcreate]

/-- Witness for C6 (amended) at the concrete failed-lookup run. -/
theorem gate_failure_fails_closed_witness :
    createJobStatus lookupFailSched = JobStatus.failure ∧
    releaseCreated lookupFailSched = false ∧
    (∀ l : Leg, legStatus lookupFailSched l = JobStatus.skipped) ∧
    buildJobStatus lookupFailSched = JobStatus.skipped ∧
    universalStatus lookupFailSched = JobStatus.skipped ∧
    buildWebStatus lookupFailSched = JobStatus.skipped ∧
    aurStatus lookupFailSched = JobStatus.skipped ∧
    totalPublishOps lookupFailSched = 0 ∧
    workflowSuccess lookupFailSched = false :=
  gate_failure_fails_closed lookupFailSched rfl

/-- The run input of the C7 counterexample: a manual dispatch whose
recency lookup fails. -/
def lookupFailManual : RunInput := ⟨r"workflow_dispatch", 1700000000, none, fun _ => false⟩

/-- C7 counterexample: a manually triggered run is gated off when the
recency lookup errors — the `curl | jq` / `date -d` commands run before
the event-name test, so `set -e` kills the job and nothing downstream
runs, contradicting "regardless of the outcome of the recency lookup". -/
theorem manual_gated_off_cex :
    createJobStatus lookupFailManual = JobStatus.failure ∧
    releaseCreated lookupFailManual = false ∧
    buildJobStatus lookupFailManual = JobStatus.skipped ∧
    universalStatus lookupFailManual = JobStatus.skipped := by
  refine ⟨rfl, rfl, rfl, rfl⟩

/-- C7 (amended): a manually triggered run whose recency lookup
*succeeds* cannot be gated off: however stale the repository, the whole
run is identical to a run against a just-updated repository, and the
release is created. -/
theorem manual_run_ungated (e : String) (now ts : Int) (f : Leg → Bool)
    (hm : manualEvent e = true) :
    outcomeOf ⟨e, now, some ts, f⟩ = outcomeOf ⟨e, now, some now, f⟩ ∧
    releaseCreated ⟨e, now, some ts, f⟩ = true := by
  have hstep : ∀ u : Int, activityCheckStep ⟨e, now, some u, f⟩ = .ok true := by
    intro u
    simp [activityCheckStep, activityAlive, hm]
  have hrel : ∀ u : Int, releaseCreated ⟨e, now, some u, f⟩ = true := by
    intro u
    simp [releaseCreated, createJobStatus, activityOutput, hstep u]
  refine ⟨?_, hrel ts⟩
  simp only [outcomeOf, createJobStatus, activityOutput, releaseCreated, legRuns,
    legStatus, buildJobStatus, universalRuns, universalStatus, buildWebStatus,
    aurStatus, totalPublishOps, macArtifactUploaded, hstep]

/-- Witness for C7 (amended): a manual run on a 30-day-stale repository
equals the run on a fresh one. -/
theorem manual_run_ungated_witness :
    outcomeOf ⟨r"workflow_dispatch", 2592000, some 0, fun _ => false⟩ =
      outcomeOf ⟨r"workflow_dispatch", 2592000, some 2592000, fun _ => false⟩ ∧
    releaseCreated ⟨r"workflow_dispatch", 2592000, some 0, fun _ => false⟩ = true :=
  manual_run_ungated (r"workflow_dispatch") 2592000 0 (fun _ => false) (by decide)

/-- The run input of the C8 counterexample: an otherwise healthy manual
run in which only the linux leg's external build errors. -/
def linuxFailInput : RunInput :=
  ⟨r"workflow_dispatch", 0, some 0, fun l => l == .linux_x86_64⟩

/-- C8 counterexample: when the linux leg fails, both macOS legs still
succeed and upload their binaries, yet `build-mac-universal-binary` and
`publish-aur-package` — neither of which consumes the linux artifact —
are skipped, because both `need` the whole `build` job; the claim that
merge/publish steps not depending on the failed platform still proceed
is false. -/
theorem fan_out_not_fail_open_cex :
    legStatus linuxFailInput .linux_x86_64 = JobStatus.failure ∧
    legStatus linuxFailInput .macos_x86_64 = JobStatus.success ∧
    legStatus linuxFailInput .macos_aarch64 = JobStatus.success ∧
    macArtifactUploaded linuxFailInput .macos_x86_64 = true ∧
    macArtifactUploaded linuxFailInput .macos_aarch64 = true ∧
    universalStatus linuxFailInput = JobStatus.skipped ∧
    aurStatus linuxFailInput = JobStatus.skipped := by
  refine ⟨rfl, rfl, rfl, rfl, rfl, rfl, rfl⟩

/-- C8 (amended): the fan-out is failure-isolated — with
`fail-fast: false` one leg's failure neither blocks nor cancels the
other legs, and `build-web` (which does not need `build`) still runs —
but the failure marks the whole `build` job failed, which skips the
merger and the AUR publisher even when the failed platform is not among
their inputs; the failure is reported through the job status. -/
theorem build_failure_isolation (i : RunInput) (l : Leg)
    (hrun : legRuns i = true) (hfail : i.legFails l = true) :
    (∀ j : Leg, j ≠ l → i.legFails j = false → legStatus i j = JobStatus.success) ∧
    buildWebStatus i = JobStatus.success ∧
    buildJobStatus i = JobStatus.failure ∧
    universalStatus i = JobStatus.skipped ∧
    aurStatus i = JobStatus.skipped := by
  have hany : allLegs.any i.legFails = true :=
    List.any_eq_true.mpr ⟨l, leg_mem_allLegs l, hfail⟩
  have hbuild : buildJobStatus i = JobStatus.failure := by
    simp [buildJobStatus, hrun, hany]
  have hcond := hrun
  unfold legRuns at hcond
  refine ⟨?_, ?_, hbuild, ?_, ?_⟩
  · intro j hne hok
    simp [legStatus, hrun, hok]
  · simp [buildWebStatus, hcond]
  · simp [universalStatus, universalRuns, hbuild]
  · simp [aurStatus, hbuild]

/-- Witness for C8 (amended) at the concrete run whose linux leg fails. -/
theorem build_failure_isolation_witness :
    (∀ j : Leg, j ≠ Leg.linux_x86_64 → linuxFailInput.legFails j = false →
      legStatus linuxFailInput j = JobStatus.success) ∧
    buildWebStatus linuxFailInput = JobStatus.success ∧
    buildJobStatus linuxFailInput = JobStatus.failure ∧
    universalStatus linuxFailInput = JobStatus.skipped ∧
    aurStatus linuxFailInput = JobStatus.skipped :=
  build_failure_isolation linuxFailInput .linux_x86_64 rfl rfl

/-- Splitting the universal package literal at the claim's
`<stem>-<name>.<ext>` joints. -/
theorem universal_file_shape (s : String) :
    universalPackageFile s = s ++ r"-" ++ r"macos-universal" ++ r"." ++ r"tar.gz" := by
  show s ++ r"-macos-universal.tar.gz" = _
  rw [String.append_assoc s, String.append_assoc s, String.append_assoc s]
  exact congrArg (fun x => s ++ x) (by decide)

/-- C9: for every entry of the five-row matrix the produced archive is
`<stem>-<build_name>.<ext>` with the stem `ruffle-nightly-<underscore
date>`, and the extension is `zip` exactly when the platform name starts
with `windows` (the workflow tests the prefix `win`, which agrees on the
whole table); the merged artifact is named with platform
`macos-universal` and extension `tar.gz`. -/
theorem package_naming (t : BuildTarget) (ht : t ∈ buildTargets) (ud : String) :
    packageFile (packageStem ud) t.build_name =
      r"ruffle-nightly-" ++ ud ++ r"-" ++ t.build_name ++ r"." ++
        (if charsStartWith t.build_name (r"windows") then r"zip" else r"tar.gz") ∧
    (packageExt t.build_name = r"zip" ↔ charsStartWith t.build_name (r"windows") = true) ∧
    universalPackageFile (packageStem ud) =
      r"ruffle-nightly-" ++ ud ++ r"-" ++ r"macos-universal" ++ r"." ++ r"tar.gz" := by
  fin_cases ht <;>
    exact ⟨congrArg (fun x => r"ruffle-nightly-" ++ ud ++ r"-" ++ _ ++ r"." ++ x)
        (by decide),
      by decide,
      universal_file_shape (packageStem ud)⟩

/-- Witness for C9 at the linux and windows rows of the table with a
concrete underscore date. -/
theorem package_naming_witness :
    (packageFile (packageStem (r"1970_01_01")) (r"windows-x86_32") =
      r"ruffle-nightly-" ++ r"1970_01_01" ++ r"-" ++ r"windows-x86_32" ++ r"." ++
        (if charsStartWith (r"windows-x86_32") (r"windows") then r"zip"
          else r"tar.gz")) ∧
    (packageExt (r"windows-x86_32") = r"zip" ↔
      charsStartWith (r"windows-x86_32") (r"windows") = true) ∧
    universalPackageFile (packageStem (r"1970_01_01")) =
      r"ruffle-nightly-" ++ r"1970_01_01" ++ r"-" ++ r"macos-universal" ++ r"." ++
        r"tar.gz" :=
  package_naming ⟨r"windows-x86_32", r"windows-latest", some (r"i686-pc-windows-msvc"),
    some (r"-Ctarget-feature=+crt-static")⟩ (by decide) (r"1970_01_01")

/-- C10: the demo-mirror update deletes exactly the top-level files the
globs `*.js *.wasm *.html` match before copying the fresh build in: a
path that is not a top-level entry is never touched, a top-level entry
absent from the fresh build is removed when the glob matches it and kept
intact otherwise, and a top-level entry of the fresh build overwrites
whatever was there. -/
theorem demo_mirror_frame (dist : List (String × String)) (t : FileTree) (p : DirPath) :
    (p.length ≠ 1 → updateDemoTree dist t p = t p) ∧
    (∀ name, p = [name] → dist.lookup name = none →
      updateDemoTree dist t p = (if topGlobMatch name then none else t p)) ∧
    (∀ name c, p = [name] → dist.lookup name = some c →
      updateDemoTree dist t p = some c) := by
  refine ⟨?_, ?_, ?_⟩
  · intro hlen
    cases p with
    | nil => rfl
    | cons a q =>
      cases q with
      | nil => exact absurd rfl hlen
      | cons b rcs => rfl
  · intro name hp hnone
    subst hp
    simp [updateDemoTree, copyFresh, rmOldBuild, hnone]
  · intro name c hp hsome
    subst hp
    simp [updateDemoTree, copyFresh, hsome]

/-- The fresh demo build of the C10 witness. -/
def freshDist : List (String × String) := [(r"fresh.js", r"new")]

/-- The pre-existing demo mirror tree of the C10 witness: a stale
top-level file, a file in a subdirectory, and a non-matching top-level
file. -/
def demoTree : FileTree :=
  fun q =>
    if q = [r"old.js"] then some (r"old")
    else if q = [r"sub", r"page.html"] then some (r"keep")
    else if q = [r"README.md"] then some (r"readme")
    else none

/-- Witness for C10 at the concrete mirror: the subdirectory file is
untouched, the stale matching file is deleted, the non-matching
top-level file is kept, and the fresh file is written. -/
theorem demo_mirror_frame_witness :
    updateDemoTree freshDist demoTree [r"sub", r"page.html"] =
      demoTree [r"sub", r"page.html"] ∧
    updateDemoTree freshDist demoTree [r"old.js"] =
      (if topGlobMatch (r"old.js") then none else demoTree [r"old.js"]) ∧
    updateDemoTree freshDist demoTree [r"README.md"] =
      (if topGlobMatch (r"README.md") then none else demoTree [r"README.md"]) ∧
    updateDemoTree freshDist demoTree [r"fresh.js"] = some (r"new") :=
  ⟨(demo_mirror_frame freshDist demoTree [r"sub", r"page.html"]).1 (by decide),
   (demo_mirror_frame freshDist demoTree [r"old.js"]).2.1 (r"old.js") rfl (by decide),
   (demo_mirror_frame freshDist demoTree [r"README.md"]).2.1 (r"README.md") rfl
     (by decide),
   (demo_mirror_frame freshDist demoTree [r"fresh.js"]).2.2 (r"fresh.js") (r"new") rfl
     (by decide)⟩

end RuffleNightly
